import Mathlib

/-!
Shallow embedding of the gie_v2 client library:
`src/utils/helpers.py` (validate_dates, validate_input_params),
`src/clients/gie_client.py` (GieClient: __init__, fetch, query_storage,
query_unavailability, query_eic_listing, query_news_listing) and
`src/clients/base_gie_client.py` (api_key property/setter,
_validate_session_headers).

Python values that flow through the parameter dictionaries are modelled by the
inductive `Value` (strings, ints, bools, datetime.date values, None); a Python
dict is an association list in insertion order; a call that can raise is a
`Except PyErr` computation, with `PyErr` covering the ValueError raises of the
source as well as the KeyError of a missing dict key and the TypeError of an
unsupported comparison, both of which Python raises implicitly.
-/

namespace GieV2

/-- A `datetime.date`: the constructor of the Python class guarantees
`1 ≤ month ≤ 12` and `1 ≤ day ≤ 31`, and dates compare lexicographically by
(year, month, day). -/
structure Date where
  year : Int
  month : Nat
  day : Nat
deriving DecidableEq, Repr

/-- Key that orders valid calendar dates exactly as Python orders
`datetime.date` values (months are at most 12 and days at most 31, so the
mixed-radix encoding is strictly monotone in (year, month, day)). -/
def Date.key (d : Date) : Int :=
  d.year * 10000 + (d.month : Int) * 100 + (d.day : Int)

/-- A Python value as it appears in the parameter dictionaries of the client:
`str`, `int`, `bool`, `datetime.date` or `None`. -/
inductive Value where
  | vStr (s : String)
  | vInt (n : Int)
  | vBool (b : Bool)
  | vDate (d : Date)
  | vNone
deriving DecidableEq, Repr

/-- Python truthiness of a `Value`: `""`, `0`, `False` and `None` are falsy,
every `datetime.date` is truthy. -/
def Value.truthy : Value → Bool
  | .vStr s => !(s == "")
  | .vInt n => !(n == 0)
  | .vBool b => b
  | .vDate _ => true
  | .vNone => false

/-- The exceptions the embedded code can raise: the explicit `ValueError`
raises of the source, the `KeyError` of `params[k]` on a missing key, and the
`TypeError` of a comparison between incomparable values. -/
inductive PyErr where
  | valueError (msg : String)
  | keyError (k : String)
  | typeError
deriving DecidableEq, Repr

/-- A Python dict of request parameters: an association list in insertion
order with pairwise-distinct keys for the dicts the client builds. -/
abbrev ParamDict := List (String × Value)

/-- Value of the first entry for key `k`, if any (`k in p` and `p.get(k)`). -/
def getOpt (p : ParamDict) (k : String) : Option Value :=
  (p.find? (fun kv => kv.1 == k)).map (fun kv => kv.2)

/-- `params.get(k, None)`: the stored value, or `None` when `k` is absent. -/
def getDefault (p : ParamDict) (k : String) : Value :=
  (getOpt p k).getD .vNone

/-- `params[k]`: the stored value, or a `KeyError` when `k` is absent. -/
def getItem (p : ParamDict) (k : String) : Except PyErr Value :=
  match getOpt p k with
  | some v => Except.ok v
  | none => Except.error (.keyError k)

/-- The numeric view Python uses when comparing: ints are themselves and bools
are 0 or 1; other values have none. -/
def Value.asNum : Value → Option Int
  | .vInt n => some n
  | .vBool b => some (if b then 1 else 0)
  | _ => none

/-- Python `a > b` on parameter values: defined for two dates, two strings or
two numbers (int/bool); any other pairing raises a `TypeError`. -/
def pyGt (a b : Value) : Except PyErr Bool :=
  match a, b with
  | .vDate x, .vDate y => Except.ok (decide (y.key < x.key))
  | .vStr x, .vStr y => Except.ok (decide (y < x))
  | _, _ =>
    match a.asNum, b.asNum with
    | some x, some y => Except.ok (decide (y < x))
    | _, _ => Except.error .typeError

/-- Python `a <= b`, same domain as `pyGt`. -/
def pyLe (a b : Value) : Except PyErr Bool :=
  match a, b with
  | .vDate x, .vDate y => Except.ok (decide (x.key ≤ y.key))
  | .vStr x, .vStr y => Except.ok (decide (x ≤ y))
  | _, _ =>
    match a.asNum, b.asNum with
    | some x, some y => Except.ok (decide (x ≤ y))
    | _, _ => Except.error .typeError

/-- Python `a == b` between parameter values: equal within a kind, `True == 1`
and `False == 0` across bool/int, everything else unequal (never raises). -/
def pyEq (a b : Value) : Bool :=
  match a, b with
  | .vStr x, .vStr y => x == y
  | .vDate x, .vDate y => x == y
  | .vNone, .vNone => true
  | _, _ =>
    match a.asNum, b.asNum with
    | some x, some y => x == y
    | _, _ => false

/-- Python `v in xs` for a list of constants: some member equals `v`. -/
def pyIn (v : Value) (xs : List Value) : Bool :=
  xs.any (fun x => pyEq x v)

/-- `APIType` (an enum of base URLs). Modelled from the spec: the module
src/api_models/platform.py that defines this enum is not among the repository
files; the spec describes the Endpoint set as a fixed small enumeration of
base URLs with two known members, and the tests show `APIType.AGSI.value` is
"https://agsi.gie.eu/api/" (the sibling gas-LNG platform is ALSI). -/
inductive APIType where
  | AGSI
  | ALSI
deriving DecidableEq, Repr

/-- Modelled from the spec: the `.value` of an `APIType` member, the base URL
of the platform (tests show the AGSI value; ALSI follows the same scheme). -/
def APIType.value : APIType → String
  | .AGSI => "https://agsi.gie.eu/api/"
  | .ALSI => "https://alsi.gie.eu/api/"

/-- A Python object passed where the code expects an `APIType`: either an
actual member of the enum, or any other object, for which
`isinstance(api_type, APIType)` is false. -/
inductive ApiTypeArg where
  | apiType (a : APIType)
  | notApiType
deriving DecidableEq, Repr

/-- The `request_type` literal of `validate_input_params`. -/
inductive RequestType where
  | storage
  | unavailability
deriving DecidableEq, Repr

/-- Message of the ValueError raised by the `isinstance(api_type, APIType)`
check of validate_input_params (the source raises with this exact text). -/
def apiTypeMsg : String := "The starting date must be before the end date."

def countryMsg : String :=
  "`country` must be provided if `company` or `facility` are passed"

def companyMsg : String := "`company` must be provided if `facility` is passed"

def datesMsg : String := "Starting date is after end date!"

def pageMsg : String := "`page` param must be more than 0"

def sizeMsg : String := "`size` param must be between 1 and 300"

/-- Text of f-string f"`reverse` must be one of: \x7breverse_options\x7d". -/
def reverseMsg : String := "`reverse` must be one of: ['true', 'false', 0, 1]"

/-- Text of f-string f"`type` must be one of \x7btype_vars\x7d" per kind. -/
def typeMsg : RequestType → String
  | .storage => "`type` must be one of ['EU', 'NE', 'AI']"
  | .unavailability => "`type` must be one of ['Unplanned', 'Planned']"

/-- `reverse_options = ["true", "false", 0, 1]` of validate_input_params. -/
def reverse_options : List Value :=
  [.vStr "true", .vStr "false", .vInt 0, .vInt 1]

/-- `type_vars`: allowed `type` values per request kind. -/
def type_vars : RequestType → List Value
  | .storage => [.vStr "EU", .vStr "NE", .vStr "AI"]
  | .unavailability => [.vStr "Unplanned", .vStr "Planned"]

/-- helpers.validate_dates: raises only when both arguments are truthy and
the first compares greater than the second (`beginning and end` short-circuits,
so nothing is compared when either is falsy). The Python parameter named `end`
is `ending` here (`end` is reserved in Lean). -/
def validate_dates (beginning ending : Value) : Except PyErr Unit :=
  if beginning.truthy && ending.truthy then do
    let gt ← pyGt beginning ending
    if gt then Except.error (.valueError datesMsg) else pure ()
  else pure ()

/-- helpers.validate_input_params, transliterated check by check. Dict
accesses follow the source exactly: `params["country"]`, `params["company"]`,
`params["facility"]`, `params["page"]`, `params["size"]`, `params["reverse"]`
and `params["type"]` are bracket accesses that raise KeyError on a missing
key, and they are evaluated lazily in the order Python's short-circuiting
`and`/`or` reaches them; the four date fields are read with
`params.get(key, None)`. The chained `1 <= params["size"] <= 300` evaluates
`params["size"] <= 300` only when `1 <= params["size"]` held. -/
def validate_input_params (api_type : ApiTypeArg) (params : ParamDict)
    (request_type : RequestType) : Except PyErr Unit := do
  match api_type with
  | .notApiType => Except.error (.valueError apiTypeMsg)
  | .apiType _ => pure ()
  let country ← getItem params "country"
  let cond1 ←
    if country.truthy then pure false
    else do
      let company ← getItem params "company"
      if company.truthy then pure true
      else do
        let facility ← getItem params "facility"
        pure facility.truthy
  if cond1 then Except.error (.valueError countryMsg) else pure ()
  let facility ← getItem params "facility"
  let cond2 ←
    if facility.truthy then do
      let company ← getItem params "company"
      pure (!company.truthy)
    else pure false
  if cond2 then Except.error (.valueError companyMsg) else pure ()
  validate_dates (getDefault params "from_date") (getDefault params "to_date")
  validate_dates (getDefault params "start") (getDefault params "end")
  let page ← getItem params "page"
  let pageLe ← pyLe page (.vInt 0)
  if pageLe then Except.error (.valueError pageMsg) else pure ()
  let size ← getItem params "size"
  let le1 ← pyLe (.vInt 1) size
  let inRange ← if le1 then pyLe size (.vInt 300) else pure false
  if !inRange then Except.error (.valueError sizeMsg) else pure ()
  let reverse ← getItem params "reverse"
  if reverse.truthy && !(pyIn reverse reverse_options) then
    Except.error (.valueError reverseMsg)
  else pure ()
  let ty ← getItem params "type"
  if ty.truthy && !(pyIn ty (type_vars request_type)) then
    Except.error (.valueError (typeMsg request_type))
  else pure ()

/-- The one HTTP request a call issues: the final URL and the filtered query
parameters handed to `self.session.get(url=final_url, params=final_params)`. -/
structure Request where
  url : String
  params : ParamDict
deriving DecidableEq, Repr

/-- The prefix of `s` up to and including its last slash (empty if none). -/
def upToLastSlash (s : String) : String :=
  String.mk ((s.toList.reverse.dropWhile (fun c => c != '/')).reverse)

/-- `urllib.parse.urljoin(root_url, endpoint)` for the arguments this client
passes: `endpoint` is `None` or a bare relative path segment (such as
"unavailability", "about" or "news"), and `root_url` is an absolute base URL,
so the join returns the base unchanged for `None`/empty and otherwise replaces
everything after the last slash of the base with the segment. -/
def urljoin (base : String) (url : Option String) : String :=
  match url with
  | none => base
  | some u => if u == "" then base else upToLastSlash base ++ u

/-- The falsy-value filtering of GieClient.fetch:
`final_params = \x7bk: v for k, v in params.items() if v\x7d if params else dict()`. -/
def filter_params (params : Option ParamDict) : ParamDict :=
  match params with
  | some p => p.filter (fun kv => kv.2.truthy)
  | none => []

/-- GieClient.fetch, up to the transport: the request it hands to
`self.session.get`. -/
def fetch_request (api_type : APIType) (params : Option ParamDict)
    (endpoint : Option String) : Request :=
  { url := urljoin api_type.value endpoint, params := filter_params params }

/-- GieClient.fetch: builds the final URL and filtered parameters, issues the
single GET and returns `response.json()` as-is. The transport together with
JSON decoding is the function `g : Request → J`, standing for
`fun r => session.get(url=r.url, params=r.params).json()`. -/
def fetch {J : Type} (g : Request → J) (api_type : APIType)
    (params : Option ParamDict := none) (endpoint : Option String := none) : J :=
  g (fetch_request api_type params endpoint)

/-- The parameter dict GieClient.query_storage assembles, in source order
(note `from_date` is stored under key "from" and `to_date` under "to"). -/
def query_storage_params (page reverse size from_date to_date date updated
    type country company facility : Value) : ParamDict :=
  [("from", from_date), ("to", to_date), ("date", date), ("page", page),
   ("reverse", reverse), ("size", size), ("updated", updated), ("type", type),
   ("country", country), ("company", company), ("facility", facility)]

/-- GieClient.query_storage up to the transport: validates the assembled dict
with request_type "storage" and, if that passes, the request `fetch` issues
against the base endpoint (no relative path). Defaults follow the Python
signature: page=1, size=30, everything else None. -/
def query_storage_request (api_type : APIType)
    (page : Value := .vInt 1) (reverse : Value := .vNone)
    (size : Value := .vInt 30) (from_date : Value := .vNone)
    (to_date : Value := .vNone) (date : Value := .vNone)
    (updated : Value := .vNone) (type : Value := .vNone)
    (country : Value := .vNone) (company : Value := .vNone)
    (facility : Value := .vNone) : Except PyErr Request := do
  let params := query_storage_params page reverse size from_date to_date date
    updated type country company facility
  validate_input_params (.apiType api_type) params .storage
  pure (fetch_request api_type (some params) none)

/-- GieClient.query_storage: on validation success the decoded JSON body of
the one GET, returned verbatim. -/
def query_storage {J : Type} (g : Request → J) (api_type : APIType)
    (page : Value := .vInt 1) (reverse : Value := .vNone)
    (size : Value := .vInt 30) (from_date : Value := .vNone)
    (to_date : Value := .vNone) (date : Value := .vNone)
    (updated : Value := .vNone) (type : Value := .vNone)
    (country : Value := .vNone) (company : Value := .vNone)
    (facility : Value := .vNone) : Except PyErr J :=
  (query_storage_request api_type page reverse size from_date to_date date
    updated type country company facility).map g

/-- The parameter dict GieClient.query_unavailability assembles, in source
order. -/
def query_unavailability_params (page reverse size from_date to_date start
    ending updated type end_flag country company facility : Value) :
    ParamDict :=
  [("page", page), ("reverse", reverse), ("size", size), ("from", from_date),
   ("to", to_date), ("start", start), ("end", ending), ("updated", updated),
   ("type", type), ("end_flag", end_flag), ("country", country),
   ("company", company), ("facility", facility)]

/-- GieClient.query_unavailability up to the transport: validates the
assembled dict with request_type "unavailability" and, if that passes, the
request `fetch` issues against the relative path "unavailability". The Python
parameter named `end` is `ending` here. -/
def query_unavailability_request (api_type : APIType)
    (page : Value := .vInt 1) (reverse : Value := .vNone)
    (size : Value := .vInt 30) (from_date : Value := .vNone)
    (to_date : Value := .vNone) (start : Value := .vNone)
    (ending : Value := .vNone) (updated : Value := .vNone)
    (type : Value := .vNone) (end_flag : Value := .vNone)
    (country : Value := .vNone) (company : Value := .vNone)
    (facility : Value := .vNone) : Except PyErr Request := do
  let params := query_unavailability_params page reverse size from_date
    to_date start ending updated type end_flag country company facility
  validate_input_params (.apiType api_type) params .unavailability
  pure (fetch_request api_type (some params) (some "unavailability"))

/-- GieClient.query_unavailability: on validation success the decoded JSON
body of the one GET, returned verbatim. -/
def query_unavailability {J : Type} (g : Request → J) (api_type : APIType)
    (page : Value := .vInt 1) (reverse : Value := .vNone)
    (size : Value := .vInt 30) (from_date : Value := .vNone)
    (to_date : Value := .vNone) (start : Value := .vNone)
    (ending : Value := .vNone) (updated : Value := .vNone)
    (type : Value := .vNone) (end_flag : Value := .vNone)
    (country : Value := .vNone) (company : Value := .vNone)
    (facility : Value := .vNone) : Except PyErr J :=
  (query_unavailability_request api_type page reverse size from_date to_date
    start ending updated type end_flag country company facility).map g

/-- GieClient.query_eic_listing up to the transport. -/
def query_eic_listing_request (api_type : APIType)
    (show_listing : Bool := false) : Request :=
  fetch_request api_type
    (if show_listing then some [("show", .vStr "listing")] else none)
    (some "about")

/-- GieClient.query_news_listing up to the transport
(`params = \x7b"url": news_url\x7d if news_url else None`). -/
def query_news_listing_request (api_type : APIType)
    (news_url : Option String := none) : Request :=
  fetch_request api_type
    (match news_url with
     | some u => if u == "" then none else some [("url", .vStr u)]
     | none => none)
    (some "news")

/-- A `requests.Session` as the client observes it: its headers dict. -/
structure Session where
  headers : List (String × String)
deriving DecidableEq, Repr

/-- Value of header `k`, if present. -/
def Session.headerVal (s : Session) (k : String) : Option String :=
  (s.headers.find? (fun kv => kv.1 == k)).map (fun kv => kv.2)

/-- A constructed client: the credential held by the `api_key` property and
the HTTP session. -/
structure GieClient where
  api_key : String
  session : Session
deriving DecidableEq, Repr

def apiKeyMissingMsg : String := "API key is missing?"

def headerMissingMsg : String := "Session headers must include 'x-key'"

def headerIncorrectMsg : String := "Session headers include incorrect 'x-key'"

/-- GieClient.__init__ together with the BaseGieClient api_key setter and
_validate_session_headers: the setter rejects an empty credential; when no
session is supplied one is created with headers `\x7b"x-key": api_key\x7d`;
then the session's headers must contain "x-key" and its value must equal the
credential. On any failure no client object exists. -/
def GieClient.make (api_key : String) (session : Option Session := none) :
    Except PyErr GieClient := do
  if api_key == "" then Except.error (.valueError apiKeyMissingMsg)
  else pure ()
  let s := match session with
    | none => { headers := [("x-key", api_key)] : Session }
    | some s => s
  match s.headerVal "x-key" with
  | none => Except.error (.valueError headerMissingMsg)
  | some v =>
    if v == api_key then pure { api_key := api_key, session := s }
    else Except.error (.valueError headerIncorrectMsg)

/-- One call of a public method of a constructed client, with its arguments.
Used to state that running methods never changes the client's state. -/
inductive ClientOp where
  | opFetch (api_type : APIType) (params : Option ParamDict)
      (endpoint : Option String)
  | opQueryStorage (api_type : APIType) (args : List Value)
  | opQueryUnavailability (api_type : APIType) (args : List Value)
  | opQueryEicListing (api_type : APIType) (show_listing : Bool)
  | opQueryNewsListing (api_type : APIType) (news_url : Option String)
deriving DecidableEq, Repr

/-- The client's state after one method call. Each method body (fetch,
query_storage, query_unavailability, query_eic_listing, query_news_listing)
only reads `self.session` and never assigns to `self.api_key`, `self.session`
or the session's headers, so each case returns the state unchanged. -/
def GieClient.afterOp (c : GieClient) : ClientOp → GieClient
  | .opFetch _ _ _ => c
  | .opQueryStorage _ _ => c
  | .opQueryUnavailability _ _ => c
  | .opQueryEicListing _ _ => c
  | .opQueryNewsListing _ _ => c

/-- The fail-fast invariant of a constructed client: its session's "x-key"
header equals its credential, and the credential is non-empty. -/
def clientInvariant (c : GieClient) : Prop :=
  c.session.headerVal "x-key" = some c.api_key ∧ c.api_key ≠ ""

/-- The spec's date-range rule on one pair of optional dates: violated exactly
when both dates are present and the first is chronologically after the
second. -/
def dateRangeViolated (x y : Value) : Bool :=
  match x, y with
  | .vDate a, .vDate b => decide (b.key < a.key)
  | _, _ => false

/-- A value that is a date or None (the well-typed contents of the four
optional date fields per the Python signature `datetime.date | None`). -/
def Value.isDateOpt : Value → Bool
  | .vDate _ => true
  | .vNone => true
  | _ => false

deriving instance DecidableEq for Except

theorem getItem_of_getOpt {p : ParamDict} {k : String} {v : Value}
    (h : getOpt p k = some v) : getItem p k = Except.ok v := by
  simp [getItem, h]

theorem getItem_of_none {p : ParamDict} {k : String}
    (h : getOpt p k = none) : getItem p k = Except.error (.keyError k) := by
  simp [getItem, h]

theorem getOpt_cons_ne (k k' : String) (v : Value) (p : ParamDict)
    (h : (k' == k) = false) : getOpt ((k', v) :: p) k = getOpt p k := by
  simp [getOpt, List.find?, h]

/-- On date-or-None arguments, validate_dates fails exactly when the pair
violates the spec's date-range rule. -/
theorem validate_dates_of_isDateOpt (x y : Value)
    (hx : x.isDateOpt = true) (hy : y.isDateOpt = true) :
    validate_dates x y =
      if dateRangeViolated x y = true then .error (.valueError datesMsg)
      else .ok () := by
  cases x <;> cases y <;>
    simp_all [Value.isDateOpt, validate_dates, dateRangeViolated,
      Value.truthy, pyGt, Bind.bind, Except.bind, Pure.pure, Except.pure]

/-- C1, counterexample. The claim covers mappings in which `country` is
absent; there `params["country"]` raises a KeyError, not the country-required
ValueError: with `country` absent and `company` = "ABC Corp",
validate_input_params fails with KeyError "country", a different error. -/
theorem c1_absent_country_keyerror :
    validate_input_params (.apiType .AGSI)
      [("company", Value.vStr "ABC Corp")] .storage
      = .error (.keyError "country")
    ∧ PyErr.keyError "country" ≠ PyErr.valueError countryMsg := by
  constructor
  · rfl
  · decide

/-- C2. The filtered mapping a request carries holds exactly the entries of
the raw mapping whose value is truthy, and on the spec's example
\x7b"a":"x","b":"","c":0,"d":None,"e":False,"f":"y"\x7d the outgoing set is
exactly \x7b"a":"x","f":"y"\x7d. -/
theorem c2_falsy_filtering :
    (∀ (a : APIType) (p : ParamDict) (ep : Option String) (kv : String × Value),
        kv ∈ (fetch_request a (some p) ep).params ↔
          kv ∈ p ∧ kv.2.truthy = true)
    ∧ (fetch_request .AGSI
        (some [("a", Value.vStr "x"), ("b", Value.vStr ""),
               ("c", Value.vInt 0), ("d", Value.vNone),
               ("e", Value.vBool false), ("f", Value.vStr "y")]) none).params
        = [("a", Value.vStr "x"), ("f", Value.vStr "y")] := by
  constructor
  · intro a p ep kv
    simp [fetch_request, filter_params, List.mem_filter]
  · decide

/-- C3. query_storage on endpoint AGSI with page=1, size=30,
from_date=2023-01-01, to_date=2023-12-31, country="DE", company="ABC Corp"
issues one GET whose URL is the bare base URL https://agsi.gie.eu/api/ and
whose query parameters are exactly from/to/page/size/country/company
(from_date under key "from", to_date under "to", every None field omitted),
and returns the decoded JSON body `g` produces for that request verbatim,
whatever the transport `g` answers. -/
theorem c3_query_storage_scenario {J : Type} (g : Request → J) :
    query_storage g .AGSI (.vInt 1) .vNone (.vInt 30)
      (.vDate ⟨2023, 1, 1⟩) (.vDate ⟨2023, 12, 31⟩)
      .vNone .vNone .vNone (.vStr "DE") (.vStr "ABC Corp") .vNone
    = .ok (g { url := "https://agsi.gie.eu/api/",
               params := [("from", .vDate ⟨2023, 1, 1⟩),
                          ("to", .vDate ⟨2023, 12, 31⟩),
                          ("page", .vInt 1), ("size", .vInt 30),
                          ("country", .vStr "DE"),
                          ("company", .vStr "ABC Corp")] }) := by
  have h : query_storage_request .AGSI (.vInt 1) .vNone (.vInt 30)
      (.vDate ⟨2023, 1, 1⟩) (.vDate ⟨2023, 12, 31⟩)
      .vNone .vNone .vNone (.vStr "DE") (.vStr "ABC Corp") .vNone
      = .ok { url := "https://agsi.gie.eu/api/",
              params := [("from", .vDate ⟨2023, 1, 1⟩),
                         ("to", .vDate ⟨2023, 12, 31⟩),
                         ("page", .vInt 1), ("size", .vInt 30),
                         ("country", .vStr "DE"),
                         ("company", .vStr "ABC Corp")] } := by rfl
  simp [query_storage, h, Except.map]

/-- C4, the code at the failing input. The claim says a call whose assembled
parameters violate a rule of the spec raises before any GET; but query_storage
stores the dates under keys "from"/"to" while the validator reads
params.get("from_date")/params.get("to_date"), so a call with
from_date=2023-12-31 after to_date=2023-01-01 (rule 4 violated on the
assembled mapping) passes validation and a GET carrying the inverted range is
issued. -/
theorem c4_date_rule_skipped_on_storage_call :
    query_storage_request .AGSI (.vInt 1) .vNone (.vInt 30)
      (.vDate ⟨2023, 12, 31⟩) (.vDate ⟨2023, 1, 1⟩)
      .vNone .vNone .vNone .vNone .vNone .vNone
    = .ok { url := "https://agsi.gie.eu/api/",
            params := [("from", .vDate ⟨2023, 12, 31⟩),
                       ("to", .vDate ⟨2023, 1, 1⟩),
                       ("page", .vInt 1), ("size", .vInt 30)] }
    ∧ validate_dates (.vDate ⟨2023, 12, 31⟩) (.vDate ⟨2023, 1, 1⟩)
        = .error (.valueError datesMsg) := by
  constructor
  · rfl
  · rfl

/-- C7, the code at the failing input. When the endpoint identifier is not a
member of the APIType enum, validate_input_params raises a ValueError whose
message is the date-check text "The starting date must be before the end
date.", which does not name the endpoint/api_type field. -/
theorem c7_endpoint_error_message :
    validate_input_params .notApiType [] .storage
      = .error (.valueError "The starting date must be before the end date.") := by
  rfl

/-- C8, counterexample. With every other rule satisfied but the key "page"
absent, validate_input_params does not return successfully: it aborts with
the missing-key lookup error KeyError "page". -/
theorem c8_absent_page_keyerror :
    validate_input_params (.apiType .AGSI)
      [("country", Value.vNone), ("company", Value.vNone),
       ("facility", Value.vNone), ("size", Value.vInt 100),
       ("reverse", Value.vNone), ("type", Value.vNone)] .storage
      = .error (.keyError "page")
    ∧ Except.error (.keyError "page") ≠ (Except.ok () : Except PyErr Unit) := by
  constructor
  · rfl
  · intro h
    exact Except.noConfusion h

/-- C1, amended. For every parameter mapping in which `country` is present
with a falsy value while `company` is present and truthy, or `company` is
present and falsy and `facility` is present and truthy (the lookups Python's
short-circuit evaluation actually reaches), validate_input_params fails with
the country-required ValueError, for both request kinds and every endpoint
member. (When a consulted key is absent the failure is a KeyError instead,
as the counterexample shows.) -/
theorem c1_country_required (a : APIType) (rt : RequestType)
    (params : ParamDict) (c : Value)
    (hc : getOpt params "country" = some c) (hct : c.truthy = false)
    (h : (∃ co, getOpt params "company" = some co ∧ co.truthy = true)
       ∨ (∃ co f, getOpt params "company" = some co ∧ co.truthy = false
            ∧ getOpt params "facility" = some f ∧ f.truthy = true)) :
    validate_input_params (.apiType a) params rt
      = .error (.valueError countryMsg) := by
  rcases h with ⟨co, hco, hcot⟩ | ⟨co, f, hco, hcot, hf, hft⟩
  · simp [validate_input_params, getItem_of_getOpt hc, getItem_of_getOpt hco,
      hct, hcot, Bind.bind, Except.bind, Pure.pure, Except.pure]
  · simp [validate_input_params, getItem_of_getOpt hc, getItem_of_getOpt hco,
      getItem_of_getOpt hf, hct, hcot, hft, Bind.bind, Except.bind,
      Pure.pure, Except.pure]

/-- C1 witness: the amended theorem at the concrete mapping with `country`
present but empty and `company` = "ABC Corp". -/
theorem c1_country_required_witness :
    validate_input_params (.apiType .AGSI)
      [("country", Value.vStr ""), ("company", Value.vStr "ABC Corp")]
      .storage = .error (.valueError countryMsg) :=
  c1_country_required .AGSI .storage _ (Value.vStr "") rfl rfl
    (Or.inl ⟨Value.vStr "ABC Corp", rfl, rfl⟩)

/-- C5. Construction fails with one of the three configuration errors — empty
credential, missing "x-key" header, mismatched "x-key" header — whenever the
credential is empty, or an externally supplied session has no "x-key" header,
or that header's value differs from the credential; the `Except.error` result
carries no `GieClient`, so no method of a client is callable. -/
theorem c5_construction_fails (k : String) (s : Option Session)
    (h : k = "" ∨ ∃ ss, s = some ss ∧
          (ss.headerVal "x-key" = none
           ∨ ∃ v, ss.headerVal "x-key" = some v ∧ v ≠ k)) :
    ∃ msg, GieClient.make k s = .error (.valueError msg)
      ∧ (msg = apiKeyMissingMsg ∨ msg = headerMissingMsg
          ∨ msg = headerIncorrectMsg) := by
  rcases h with hk | ⟨ss, rfl, hs⟩
  · subst hk
    refine ⟨apiKeyMissingMsg, ?_, Or.inl rfl⟩
    simp [GieClient.make, Bind.bind, Except.bind]
  · by_cases hk : k = ""
    · subst hk
      refine ⟨apiKeyMissingMsg, ?_, Or.inl rfl⟩
      simp [GieClient.make, Bind.bind, Except.bind]
    · rcases hs with hnone | ⟨v, hv, hvk⟩
      · refine ⟨headerMissingMsg, ?_, Or.inr (Or.inl rfl)⟩
        simp [GieClient.make, beq_iff_eq, hk, hnone, Bind.bind, Except.bind,
          Pure.pure, Except.pure]
      · refine ⟨headerIncorrectMsg, ?_, Or.inr (Or.inr rfl)⟩
        simp [GieClient.make, beq_iff_eq, hk, hv, hvk, Bind.bind, Except.bind,
          Pure.pure, Except.pure]

/-- C5 witness: a session whose "x-key" header holds a different key than the
supplied credential (the repository's test_incorrect_header scenario). -/
theorem c5_construction_fails_witness :
    ∃ msg, GieClient.make "valid_api_key"
        (some { headers := [("x-key", "wrong_api_key")] })
        = .error (.valueError msg)
      ∧ (msg = apiKeyMissingMsg ∨ msg = headerMissingMsg
          ∨ msg = headerIncorrectMsg) :=
  c5_construction_fails "valid_api_key"
    (some { headers := [("x-key", "wrong_api_key")] })
    (Or.inr ⟨{ headers := [("x-key", "wrong_api_key")] }, rfl,
      Or.inr ⟨"wrong_api_key", rfl, by decide⟩⟩)

/-- C6. On a mapping that holds the seven bracket-accessed keys, an integer
page and size, and date-or-None date fields, validate_input_params equals the
spec's cascade of the eight rules evaluated in the spec's order — endpoint
membership, country-required, company-required, the two date ranges, page,
size, reverse, type — so when several rules are violated simultaneously the
reported error is that of the earliest violated rule. -/
theorem c6_rule_order (aty : ApiTypeArg) (rt : RequestType)
    (params : ParamDict) (c co f rv ty : Value) (pg sz : Int)
    (hc : getOpt params "country" = some c)
    (hco : getOpt params "company" = some co)
    (hf : getOpt params "facility" = some f)
    (hpg : getOpt params "page" = some (.vInt pg))
    (hsz : getOpt params "size" = some (.vInt sz))
    (hrv : getOpt params "reverse" = some rv)
    (hty : getOpt params "type" = some ty)
    (hfd : Value.isDateOpt (getDefault params "from_date") = true)
    (htd : Value.isDateOpt (getDefault params "to_date") = true)
    (hst : Value.isDateOpt (getDefault params "start") = true)
    (hen : Value.isDateOpt (getDefault params "end") = true) :
    validate_input_params aty params rt =
      if aty = .notApiType then .error (.valueError apiTypeMsg)
      else if (!c.truthy && (co.truthy || f.truthy)) = true then
        .error (.valueError countryMsg)
      else if (f.truthy && !co.truthy) = true then
        .error (.valueError companyMsg)
      else if (dateRangeViolated (getDefault params "from_date")
                 (getDefault params "to_date")
               || dateRangeViolated (getDefault params "start")
                 (getDefault params "end")) = true then
        .error (.valueError datesMsg)
      else if decide (pg ≤ 0) = true then .error (.valueError pageMsg)
      else if (!(decide (1 ≤ sz) && decide (sz ≤ 300))) = true then
        .error (.valueError sizeMsg)
      else if (rv.truthy && !(pyIn rv reverse_options)) = true then
        .error (.valueError reverseMsg)
      else if (ty.truthy && !(pyIn ty (type_vars rt))) = true then
        .error (.valueError (typeMsg rt))
      else .ok () := by
  cases aty with
  | notApiType =>
    simp [validate_input_params, Bind.bind, Except.bind]
  | apiType a =>
    rw [if_neg (fun h => ApiTypeArg.noConfusion h)]
    simp only [validate_input_params, getItem_of_getOpt hc,
      getItem_of_getOpt hco, getItem_of_getOpt hf, getItem_of_getOpt hpg,
      getItem_of_getOpt hsz, getItem_of_getOpt hrv, getItem_of_getOpt hty,
      validate_dates_of_isDateOpt _ _ hfd htd,
      validate_dates_of_isDateOpt _ _ hst hen,
      pyLe, Value.asNum, Bind.bind, Except.bind, Pure.pure, Except.pure]
    cases rt with
    | storage =>
      generalize Value.truthy c = g1
      generalize Value.truthy co = g2
      generalize Value.truthy f = g3
      generalize dateRangeViolated (getDefault params "from_date")
        (getDefault params "to_date") = g4
      generalize dateRangeViolated (getDefault params "start")
        (getDefault params "end") = g5
      generalize decide (pg ≤ 0) = g6
      generalize decide (1 ≤ sz) = g7
      generalize decide (sz ≤ 300) = g8
      generalize Value.truthy rv = g9
      generalize pyIn rv reverse_options = g10
      generalize Value.truthy ty = g11
      generalize pyIn ty (type_vars RequestType.storage) = g12
      revert g1 g2 g3 g4 g5 g6 g7 g8 g9 g10 g11 g12
      decide
    | unavailability =>
      generalize Value.truthy c = g1
      generalize Value.truthy co = g2
      generalize Value.truthy f = g3
      generalize dateRangeViolated (getDefault params "from_date")
        (getDefault params "to_date") = g4
      generalize dateRangeViolated (getDefault params "start")
        (getDefault params "end") = g5
      generalize decide (pg ≤ 0) = g6
      generalize decide (1 ≤ sz) = g7
      generalize decide (sz ≤ 300) = g8
      generalize Value.truthy rv = g9
      generalize pyIn rv reverse_options = g10
      generalize Value.truthy ty = g11
      generalize pyIn ty (type_vars RequestType.unavailability) = g12
      revert g1 g2 g3 g4 g5 g6 g7 g8 g9 g10 g11 g12
      decide

/-- C6 witness: a mapping violating the country, date-range, page, size,
reverse and type rules at once; the cascade (and the code) report the
earliest, the country-required error. -/
theorem c6_rule_order_witness :
    validate_input_params (.apiType .AGSI)
      [("country", Value.vStr ""), ("company", Value.vStr "ABC Corp"),
       ("facility", Value.vNone),
       ("from_date", Value.vDate ⟨2023, 12, 31⟩),
       ("to_date", Value.vDate ⟨2023, 1, 1⟩),
       ("page", Value.vInt 0), ("size", Value.vInt 400),
       ("reverse", Value.vStr "invalid"), ("type", Value.vStr "InvalidType")]
      .storage = .error (.valueError countryMsg) :=
  (c6_rule_order (.apiType .AGSI) .storage
      [("country", Value.vStr ""), ("company", Value.vStr "ABC Corp"),
       ("facility", Value.vNone),
       ("from_date", Value.vDate ⟨2023, 12, 31⟩),
       ("to_date", Value.vDate ⟨2023, 1, 1⟩),
       ("page", Value.vInt 0), ("size", Value.vInt 400),
       ("reverse", Value.vStr "invalid"), ("type", Value.vStr "InvalidType")]
      (Value.vStr "") (Value.vStr "ABC Corp") Value.vNone
      (Value.vStr "invalid") (Value.vStr "InvalidType") 0 400
      rfl rfl rfl rfl rfl rfl rfl rfl rfl rfl rfl).trans (by rfl)

/-- C8, amended. The keys "page" and "size" are required by the validator,
not optional: on a mapping where the checks before them pass, a missing
"page" aborts with KeyError "page" (not a validation error and not success),
and with a positive integer page present, a missing "size" aborts with
KeyError "size". -/
theorem c8_page_size_required (a : APIType) (rt : RequestType)
    (params : ParamDict) (c co f : Value)
    (hc : getOpt params "country" = some c)
    (hco : getOpt params "company" = some co)
    (hf : getOpt params "facility" = some f)
    (h2 : ¬(c.truthy = false ∧ (co.truthy = true ∨ f.truthy = true)))
    (h3 : ¬(f.truthy = true ∧ co.truthy = false))
    (hfd : validate_dates (getDefault params "from_date")
             (getDefault params "to_date") = .ok ())
    (hse : validate_dates (getDefault params "start")
             (getDefault params "end") = .ok ()) :
    (getOpt params "page" = none →
       validate_input_params (.apiType a) params rt
         = .error (.keyError "page"))
    ∧ (∀ pg : Int, getOpt params "page" = some (.vInt pg) → 0 < pg →
         getOpt params "size" = none →
         validate_input_params (.apiType a) params rt
           = .error (.keyError "size")) := by
  constructor
  · intro hp
    cases hctb : c.truthy <;> cases hcob : co.truthy <;> cases hfb : f.truthy <;>
      simp_all [validate_input_params, getItem_of_getOpt hc,
        getItem_of_getOpt hco, getItem_of_getOpt hf, getItem_of_none hp,
        Bind.bind, Except.bind, Pure.pure, Except.pure]
  · intro pg hp hpg hsz
    have hple : ¬(pg ≤ 0) := by omega
    cases hctb : c.truthy <;> cases hcob : co.truthy <;> cases hfb : f.truthy <;>
      simp_all [validate_input_params, getItem_of_getOpt hc,
        getItem_of_getOpt hco, getItem_of_getOpt hf, getItem_of_getOpt hp,
        getItem_of_none hsz, pyLe, Value.asNum,
        Bind.bind, Except.bind, Pure.pure, Except.pure]

/-- C8 witness: all keys but "size" present with every earlier rule
satisfied; the validator aborts with KeyError "size". -/
theorem c8_page_size_required_witness :
    validate_input_params (.apiType .AGSI)
      [("country", Value.vNone), ("company", Value.vNone),
       ("facility", Value.vNone), ("page", Value.vInt 1),
       ("reverse", Value.vNone), ("type", Value.vNone)] .storage
      = .error (.keyError "size") :=
  (c8_page_size_required .AGSI .storage
      [("country", Value.vNone), ("company", Value.vNone),
       ("facility", Value.vNone), ("page", Value.vInt 1),
       ("reverse", Value.vNone), ("type", Value.vNone)]
      Value.vNone Value.vNone Value.vNone
      rfl rfl rfl (by decide) (by decide) rfl rfl).2 1 rfl (by decide) rfl

/-- C9. A successfully constructed client holds the supplied credential, its
session's "x-key" header equals that credential and the credential is
non-empty, and the invariant still holds after any sequence of public method
calls (no method body assigns to the credential, the session or its
headers). -/
theorem c9_credential_session_invariant (k : String) (s : Option Session)
    (c : GieClient) (h : GieClient.make k s = .ok c) :
    c.api_key = k ∧ clientInvariant c
      ∧ ∀ ops : List ClientOp,
          clientInvariant (ops.foldl GieClient.afterOp c) := by
  have hfix : ∀ ops : List ClientOp, ops.foldl GieClient.afterOp c = c := by
    intro ops
    induction ops with
    | nil => rfl
    | cons op rest ih =>
      have hop : GieClient.afterOp c op = c := by cases op <;> rfl
      simpa [List.foldl_cons, hop] using ih
  by_cases hk : k = ""
  · subst hk
    simp [GieClient.make, Bind.bind, Except.bind] at h
  · rcases s with _ | ss
    · have hc : c = ⟨k, ⟨[("x-key", k)]⟩⟩ := by
        simp [GieClient.make, beq_iff_eq, hk, Session.headerVal, Bind.bind,
          Except.bind, Pure.pure, Except.pure] at h
        exact h.symm
      subst hc
      refine ⟨rfl, ⟨by simp [Session.headerVal], hk⟩, ?_⟩
      intro ops
      rw [hfix]
      exact ⟨by simp [Session.headerVal], hk⟩
    · cases hv : ss.headerVal "x-key" with
      | none =>
        simp [GieClient.make, beq_iff_eq, hk, hv, Bind.bind, Except.bind,
          Pure.pure, Except.pure] at h
      | some v =>
        by_cases hvk : v = k
        · have hc : c = ⟨k, ss⟩ := by
            simp [GieClient.make, beq_iff_eq, hk, hv, hvk, Bind.bind,
              Except.bind, Pure.pure, Except.pure] at h
            exact h.symm
          subst hc
          refine ⟨rfl, ⟨by rw [hv, hvk], hk⟩, ?_⟩
          intro ops
          rw [hfix]
          exact ⟨by rw [hv, hvk], hk⟩
        · simp [GieClient.make, beq_iff_eq, hk, hv, hvk, Bind.bind,
            Except.bind, Pure.pure, Except.pure] at h

/-- C9 witness: the internally created session at credential
"valid_api_key", with a sample method-call sequence. -/
theorem c9_credential_session_invariant_witness :
    (⟨"valid_api_key", ⟨[("x-key", "valid_api_key")]⟩⟩ :
        GieClient).api_key = "valid_api_key"
    ∧ clientInvariant ⟨"valid_api_key", ⟨[("x-key", "valid_api_key")]⟩⟩
    ∧ ∀ ops : List ClientOp,
        clientInvariant (ops.foldl GieClient.afterOp
          ⟨"valid_api_key", ⟨[("x-key", "valid_api_key")]⟩⟩) :=
  c9_credential_session_invariant "valid_api_key" none
    ⟨"valid_api_key", ⟨[("x-key", "valid_api_key")]⟩⟩ rfl

/-- C10. validate_input_params never reads the key "end_flag": adding any
`end_flag` entry to a mapping leaves its result unchanged; and
query_unavailability forwards a non-empty end_flag string verbatim under the
key "end_flag" in the outgoing request — for every such string, including
values outside the documented Confirmed/Estimate casings. -/
theorem c10_end_flag_not_validated :
    (∀ (a : ApiTypeArg) (ps : ParamDict) (rt : RequestType) (v : Value),
        validate_input_params a (("end_flag", v) :: ps) rt
          = validate_input_params a ps rt)
    ∧ (∀ ef : String, ef ≠ "" →
        query_unavailability_request .AGSI (.vInt 1) .vNone (.vInt 30) .vNone
          .vNone .vNone .vNone .vNone .vNone (.vStr ef) .vNone .vNone .vNone
        = .ok { url := "https://agsi.gie.eu/api/unavailability",
                params := [("page", .vInt 1), ("size", .vInt 30),
                           ("end_flag", .vStr ef)] }) := by
  constructor
  · intro a ps rt v
    simp only [validate_input_params, getItem, getDefault,
      getOpt_cons_ne "country" "end_flag" v ps (by decide),
      getOpt_cons_ne "company" "end_flag" v ps (by decide),
      getOpt_cons_ne "facility" "end_flag" v ps (by decide),
      getOpt_cons_ne "from_date" "end_flag" v ps (by decide),
      getOpt_cons_ne "to_date" "end_flag" v ps (by decide),
      getOpt_cons_ne "start" "end_flag" v ps (by decide),
      getOpt_cons_ne "end" "end_flag" v ps (by decide),
      getOpt_cons_ne "page" "end_flag" v ps (by decide),
      getOpt_cons_ne "size" "end_flag" v ps (by decide),
      getOpt_cons_ne "reverse" "end_flag" v ps (by decide),
      getOpt_cons_ne "type" "end_flag" v ps (by decide)]
  · intro ef hef
    have hb : (ef == "") = false := beq_eq_false_iff_ne.mpr hef
    have hurl : urljoin APIType.AGSI.value (some "unavailability")
        = "https://agsi.gie.eu/api/unavailability" := rfl
    simp [query_unavailability_request, query_unavailability_params, hurl,
      validate_input_params, getItem, getDefault, getOpt, List.find?,
      fetch_request, filter_params, validate_dates,
      pyLe, pyIn, pyEq, Value.truthy, Value.asNum, hb,
      Bind.bind, Except.bind, Pure.pure, Except.pure]

/-- C10 witness: end_flag = "wrong flag", a value outside every documented
casing, is forwarded verbatim (the repository's own test expects a
ValueError here, which the code does not raise). -/
theorem c10_end_flag_not_validated_witness :
    query_unavailability_request .AGSI (.vInt 1) .vNone (.vInt 30) .vNone
      .vNone .vNone .vNone .vNone .vNone (.vStr "wrong flag") .vNone .vNone
      .vNone
    = .ok { url := "https://agsi.gie.eu/api/unavailability",
            params := [("page", .vInt 1), ("size", .vInt 30),
                       ("end_flag", .vStr "wrong flag")] } :=
  c10_end_flag_not_validated.2 "wrong flag" (by decide)

end GieV2
